import Mathlib

/-!
Verification of the attendance-tracking application (`app.py`).

The SQLite database is embedded as a `Store` holding the three tables
(`participantes`, `atividades`, `frequencia`) as lists of rows, together
with the AUTOINCREMENT counters.  Each SQL statement of the persistence
layer becomes a pure function on `Store`; `date.today()` is passed in
explicitly as the `hoje` argument.  The Register-Attendance screen of the
Streamlit controller is embedded as a function from the store and the
operator's widget selections to the resulting store plus flags recording
whether `registrar_frequencia` was called and whether an error was shown.
-/

/-- A row of the `participantes` table. -/
structure Participante where
  id : Nat
  nome : String
  idade : Nat
  genero : String
  escolaridade : String
  data_inscricao : String
deriving DecidableEq

/-- A row of the `atividades` table. -/
structure Atividade where
  id : Nat
  atividade : String
  descricao : String
  data_atividade : String
deriving DecidableEq

/-- A row of the `frequencia` table; `presenca` is stored as 0/1. -/
structure Frequencia where
  id : Nat
  participante_id : Nat
  atividade_id : Nat
  presenca : Nat
  data_frequencia : String
deriving DecidableEq

/-- The SQLite database: the three tables plus the AUTOINCREMENT counters. -/
structure Store where
  participantes : List Participante
  atividades : List Atividade
  frequencia : List Frequencia
  nextPid : Nat
  nextAid : Nat
  nextFid : Nat
deriving DecidableEq

/-- A freshly created database: `create_tables` on an empty file. -/
def emptyStore : Store := ⟨[], [], [], 1, 1, 1⟩

/-- `add_participante(nome, idade, genero, escolaridade)`:
`INSERT INTO participantes (nome, idade, genero, escolaridade, data_inscricao)
VALUES (?, ?, ?, ?, date.today())`. -/
def add_participante (s : Store) (nome : String) (idade : Nat)
    (genero escolaridade hoje : String) : Store :=
  { s with
    participantes :=
      s.participantes ++ [⟨s.nextPid, nome, idade, genero, escolaridade, hoje⟩],
    nextPid := s.nextPid + 1 }

/-- `add_atividade(atividade, descricao)`:
`INSERT INTO atividades (atividade, descricao, data_atividade)
VALUES (?, ?, date.today())`. -/
def add_atividade (s : Store) (atividade descricao hoje : String) : Store :=
  { s with
    atividades := s.atividades ++ [⟨s.nextAid, atividade, descricao, hoje⟩],
    nextAid := s.nextAid + 1 }

/-- `registrar_frequencia(participante_id, atividade_id, presenca, data_frequencia)`:
`INSERT INTO frequencia (participante_id, atividade_id, presenca, data_frequencia)
VALUES (?, ?, ?, ?)`.  SQLite does not enforce the declared foreign keys
(enforcement is off by default) and there is no uniqueness constraint, so the
insert is unconditional. -/
def registrar_frequencia (s : Store) (participante_id atividade_id presenca : Nat)
    (data_frequencia : String) : Store :=
  { s with
    frequencia :=
      s.frequencia ++ [⟨s.nextFid, participante_id, atividade_id, presenca, data_frequencia⟩],
    nextFid := s.nextFid + 1 }

/-- `visualizar_participantes()`: `SELECT * FROM participantes` (no ORDER BY:
rows come back in insertion order). -/
def visualizar_participantes (s : Store) : List Participante :=
  s.participantes

/-- `visualizar_atividades()`: `SELECT * FROM atividades`. -/
def visualizar_atividades (s : Store) : List Atividade :=
  s.atividades

/-- `get_participantes_dropdown()`: `SELECT id, nome, idade FROM participantes`. -/
def get_participantes_dropdown (s : Store) : List (Nat × String × Nat) :=
  s.participantes.map (fun p => (p.id, p.nome, p.idade))

/-- `get_atividades_dropdown()`: `SELECT id, atividade FROM atividades`. -/
def get_atividades_dropdown (s : Store) : List (Nat × String) :=
  s.atividades.map (fun a => (a.id, a.atividade))

/-- One row of the result of `visualizar_frequencia()`:
`f.id, p.nome, a.atividade, f.presenca, f.data_frequencia`. -/
structure LinhaFrequencia where
  fid : Nat
  nome : String
  atividade : String
  presenca : Nat
  data_frequencia : String
deriving DecidableEq

/-- The join in `visualizar_frequencia()` before its ORDER BY:
`FROM frequencia f JOIN participantes p ON f.participante_id = p.id
JOIN atividades a ON f.atividade_id = a.id`. -/
def joinFrequencia (s : Store) : List LinhaFrequencia :=
  s.frequencia.flatMap (fun f =>
    (s.participantes.filter (fun p => p.id = f.participante_id)).flatMap (fun p =>
      (s.atividades.filter (fun a => a.id = f.atividade_id)).map (fun a =>
        ⟨f.id, p.nome, a.atividade, f.presenca, f.data_frequencia⟩)))

/-- The comparison used by `ORDER BY f.data_frequencia` on the joined rows
(SQLite TEXT values compare lexicographically). -/
def leData (x y : LinhaFrequencia) : Prop :=
  x.data_frequencia ≤ y.data_frequencia

instance : DecidableRel leData := fun x y =>
  inferInstanceAs (Decidable (x.data_frequencia ≤ y.data_frequencia))

instance : IsTotal LinhaFrequencia leData :=
  ⟨fun a b => le_total a.data_frequencia b.data_frequencia⟩

instance : IsTrans LinhaFrequencia leData :=
  ⟨fun _ _ _ h1 h2 => le_trans h1 h2⟩

/-- `visualizar_frequencia()`: the join above, `ORDER BY f.data_frequencia`. -/
def visualizar_frequencia (s : Store) : List LinhaFrequencia :=
  List.insertionSort leData (joinFrequencia s)

/-- The rows feeding the aggregation of `obter_dados_participantes_por_atividade`:
`FROM frequencia f JOIN atividades a ON f.atividade_id = a.id
WHERE f.presenca = 1`, projected to the grouping key
`(a.atividade, f.data_frequencia)`.  Note this query does NOT join
`participantes`. -/
def presentePares (s : Store) : List (String × String) :=
  (s.frequencia.filter (fun f => f.presenca = 1)).flatMap (fun f =>
    (s.atividades.filter (fun a => a.id = f.atividade_id)).map (fun a =>
      (a.atividade, f.data_frequencia)))

/-- The comparison used by `ORDER BY f.data_frequencia` on the grouped rows. -/
def leDataTripla (x y : String × String × Nat) : Prop :=
  x.2.1 ≤ y.2.1

instance : DecidableRel leDataTripla := fun x y =>
  inferInstanceAs (Decidable (x.2.1 ≤ y.2.1))

instance : IsTotal (String × String × Nat) leDataTripla :=
  ⟨fun a b => le_total a.2.1 b.2.1⟩

instance : IsTrans (String × String × Nat) leDataTripla :=
  ⟨fun _ _ _ h1 h2 => le_trans h1 h2⟩

/-- `GROUP BY a.atividade, f.data_frequencia` with
`COUNT(f.presenca) AS num_presentes`, then `ORDER BY f.data_frequencia`:
one output row per distinct key, carrying the number of source rows with
that key. -/
def tabelaPresenca (L : List (String × String)) : List (String × String × Nat) :=
  List.insertionSort leDataTripla
    (L.dedup.map (fun k => (k.1, k.2, L.count k)))

/-- `obter_dados_participantes_por_atividade()`: the grouped, filtered,
date-ordered presence counts (the rows of the returned DataFrame). -/
def obter_dados_participantes_por_atividade (s : Store) : List (String × String × Nat) :=
  tabelaPresenca (presentePares s)

/-- The presence count the table of `obter_dados_participantes_por_atividade`
reports for a given (activity name, date) group: the sum of the
`num_presentes` entries whose key matches (zero when the group is absent). -/
def contagemRelatada (s : Store) (nome data : String) : Nat :=
  (((obter_dados_participantes_por_atividade s).filter
      (fun r => r.1 = nome ∧ r.2.1 = data)).map (fun r => r.2.2)).sum

/-- `excluir_participante(participante_id)`:
`DELETE FROM frequencia WHERE participante_id = ?` then
`DELETE FROM participantes WHERE id = ?`. -/
def excluir_participante (s : Store) (participante_id : Nat) : Store :=
  { s with
    frequencia := s.frequencia.filter (fun f => ¬ f.participante_id = participante_id),
    participantes := s.participantes.filter (fun p => ¬ p.id = participante_id) }

/-- `excluir_atividade(atividade_id)`:
`DELETE FROM frequencia WHERE atividade_id = ?` then
`DELETE FROM atividades WHERE id = ?`. -/
def excluir_atividade (s : Store) (atividade_id : Nat) : Store :=
  { s with
    frequencia := s.frequencia.filter (fun f => ¬ f.atividade_id = atividade_id),
    atividades := s.atividades.filter (fun a => ¬ a.id = atividade_id) }

/-- `excluir_frequencia(frequencia_id)`:
`DELETE FROM frequencia WHERE id = ?`. -/
def excluir_frequencia (s : Store) (frequencia_id : Nat) : Store :=
  { s with
    frequencia := s.frequencia.filter (fun f => ¬ f.id = frequencia_id) }

/-- Outcome of one run of the Register-Attendance screen after the operator
presses the `Registrar` button. -/
structure ResultadoRegistro where
  store : Store
  chamouRegistrar : Bool
  mostrouErro : Bool
deriving DecidableEq

/-- The `Registrar Frequência` branch of the controller, at the moment the
`Registrar` button is pressed.  `selP`/`selA` are the operator's dropdown
selections (an index into the option list; the selectbox always yields one of
its options, and parsing `"ID: n, ..."` recovers that option's id).  When a
dropdown list is empty the corresponding id is `None` and a warning is shown;
the button handler calls `registrar_frequencia` only when both ids are not
`None`, and otherwise shows `st.error` and leaves the store untouched. -/
def tela_registrar_frequencia (s : Store) (selP selA presenca : Nat)
    (data_frequencia : String) : ResultadoRegistro :=
  let ps := get_participantes_dropdown s
  let listaAtv := get_atividades_dropdown s
  let participante_id : Option Nat :=
    if ps.isEmpty then none
    else some (ps.getD (selP % ps.length) (0, "", 0)).1
  let atividade_id : Option Nat :=
    if listaAtv.isEmpty then none
    else some (listaAtv.getD (selA % listaAtv.length) (0, "")).1
  if participante_id.isSome ∧ atividade_id.isSome then
    ⟨registrar_frequencia s (participante_id.getD 0) (atividade_id.getD 0)
        presenca data_frequencia, true, false⟩
  else
    ⟨s, false, true⟩

/-! ### Test fixtures (concrete stores used by witnesses and scenarios) -/

/-- The store of the specification scenario: participant "Ana", activity
"Futebol", one present attendance on 2024-03-01. -/
def cenario : Store :=
  registrar_frequencia
    (add_atividade
      (add_participante emptyStore "Ana" 10 "Feminino" "5º ano" "2024-02-01")
      "Futebol" "Treino semanal" "2024-02-01")
    1 1 1 "2024-03-01"

/-- A store with two participants, one activity and one attendance row per
participant. -/
def lojaDemo : Store :=
  ⟨[⟨1, "Ana", 10, "Feminino", "5º ano", "2024-02-01"⟩,
    ⟨2, "Bia", 11, "Feminino", "6º ano", "2024-02-02"⟩],
   [⟨1, "Futebol", "Treino semanal", "2024-02-01"⟩],
   [⟨1, 1, 1, 1, "2024-03-01"⟩, ⟨2, 2, 1, 1, "2024-03-02"⟩],
   3, 2, 3⟩

/-- A store whose only attendance row is an absence (`presenca = 0`). -/
def lojaAusente : Store :=
  ⟨[], [⟨1, "Futebol", "Treino semanal", "2024-02-01"⟩],
   [⟨1, 1, 1, 0, "2024-03-01"⟩], 1, 2, 2⟩

/-- An attendance row whose participant reference (5) matches no participant. -/
def freqOrfa : Frequencia := ⟨1, 5, 1, 1, "2024-03-01"⟩

/-- A store holding `freqOrfa`: no participants at all, one activity. -/
def lojaOrfa : Store :=
  ⟨[], [⟨1, "Futebol", "Treino semanal", "2024-02-01"⟩], [freqOrfa], 1, 2, 2⟩

/-- `lojaOrfa` with the orphaned attendance row removed. -/
def lojaSemOrfa : Store := { lojaOrfa with frequencia := [] }

/-! ### Claims C1, C3, C4, C5, C6, C7 -/

/-- C1: for an id of a stored participant, `excluir_participante` keeps a
participant row iff it was present with a different id, keeps an attendance
row iff it was present with a different participant reference, and leaves the
activities table unchanged. -/
theorem excluir_participante_spec (s : Store) (participante_id : Nat)
    (p : Participante) (f : Frequencia)
    (_hpid : participante_id ∈ s.participantes.map Participante.id) :
    (p ∈ (excluir_participante s participante_id).participantes ↔
      p ∈ s.participantes ∧ p.id ≠ participante_id) ∧
    (f ∈ (excluir_participante s participante_id).frequencia ↔
      f ∈ s.frequencia ∧ f.participante_id ≠ participante_id) ∧
    (excluir_participante s participante_id).atividades = s.atividades := by
  refine ⟨?_, ?_, rfl⟩ <;> simp [excluir_participante, List.mem_filter]

/-- C1 witness: deleting participant 1 of `lojaDemo`, instantiated at Bia's
row and at the attendance row of participant 2. -/
theorem excluir_participante_spec_witness :
    ((⟨2, "Bia", 11, "Feminino", "6º ano", "2024-02-02"⟩ : Participante) ∈
        (excluir_participante lojaDemo 1).participantes ↔
      (⟨2, "Bia", 11, "Feminino", "6º ano", "2024-02-02"⟩ : Participante) ∈
          lojaDemo.participantes ∧
        (⟨2, "Bia", 11, "Feminino", "6º ano", "2024-02-02"⟩ : Participante).id ≠ 1) ∧
    ((⟨2, 2, 1, 1, "2024-03-02"⟩ : Frequencia) ∈
        (excluir_participante lojaDemo 1).frequencia ↔
      (⟨2, 2, 1, 1, "2024-03-02"⟩ : Frequencia) ∈ lojaDemo.frequencia ∧
        (⟨2, 2, 1, 1, "2024-03-02"⟩ : Frequencia).participante_id ≠ 1) ∧
    (excluir_participante lojaDemo 1).atividades = lojaDemo.atividades :=
  excluir_participante_spec lojaDemo 1
    ⟨2, "Bia", 11, "Feminino", "6º ano", "2024-02-02"⟩
    ⟨2, 2, 1, 1, "2024-03-02"⟩ (by decide)

/-- C3: `add_participante` followed by `visualizar_participantes` yields the
previous listing extended by exactly one row carrying the given field values,
whose enrollment date is the current date `hoje` at insertion time. -/
theorem add_participante_spec (s : Store) (nome : String) (idade : Nat)
    (genero escolaridade hoje : String) :
    visualizar_participantes (add_participante s nome idade genero escolaridade hoje) =
      visualizar_participantes s ++
        [⟨s.nextPid, nome, idade, genero, escolaridade, hoje⟩] :=
  rfl

/-- C4: for every store, `visualizar_frequencia` is sorted non-decreasing by
record date. -/
theorem visualizar_frequencia_sorted (s : Store) :
    (visualizar_frequencia s).Sorted
      (fun x y => x.data_frequencia ≤ y.data_frequencia) :=
  List.sorted_insertionSort leData (joinFrequencia s)

/-- C5: when no attendance row has `presenca = 1`, the aggregation returns an
empty table. -/
theorem obter_dados_vazio (s : Store)
    (h : ∀ f ∈ s.frequencia, f.presenca ≠ 1) :
    obter_dados_participantes_por_atividade s = [] := by
  have hfil : s.frequencia.filter (fun f => decide (f.presenca = 1)) = [] := by
    rw [List.filter_eq_nil_iff]
    intro f hf
    simpa using h f hf
  have hpp : presentePares s = [] := by
    unfold presentePares
    rw [hfil]
    rfl
  unfold obter_dados_participantes_por_atividade tabelaPresenca
  rw [hpp]
  rfl

/-- C5 witness: a store whose single attendance row is an absence. -/
theorem obter_dados_vazio_witness :
    obter_dados_participantes_por_atividade lojaAusente = [] :=
  obter_dados_vazio lojaAusente (by decide)

/-- C6: `registrar_frequencia` appends exactly the given row, for every input
(no foreign-key or uniqueness check: orphan ids and duplicates are accepted),
and leaves the other two tables unchanged. -/
theorem registrar_frequencia_spec (s : Store)
    (participante_id atividade_id presenca : Nat) (data_frequencia : String) :
    (registrar_frequencia s participante_id atividade_id presenca data_frequencia).frequencia =
      s.frequencia ++
        [⟨s.nextFid, participante_id, atividade_id, presenca, data_frequencia⟩] ∧
    (registrar_frequencia s participante_id atividade_id presenca data_frequencia).participantes =
      s.participantes ∧
    (registrar_frequencia s participante_id atividade_id presenca data_frequencia).atividades =
      s.atividades :=
  ⟨rfl, rfl, rfl⟩

/-- C7: the specification scenario: after registering Ana, Futebol and one
present attendance on 2024-03-01, the attendance listing is the single joined
row and the aggregation is the single group with count 1. -/
theorem cenario_spec :
    visualizar_frequencia cenario = [⟨1, "Ana", "Futebol", 1, "2024-03-01"⟩] ∧
    obter_dados_participantes_por_atividade cenario =
      [("Futebol", "2024-03-01", 1)] :=
  ⟨by decide, by decide⟩

/-! ### Counting lemmas for the aggregation -/

/-- Filtering a duplicate-free list for one value yields that value alone,
or nothing. -/
theorem filter_eq_singleton_of_nodup {α : Type} [DecidableEq α]
    {l : List α} (h : l.Nodup) (a : α) :
    l.filter (fun x => x = a) = if a ∈ l then [a] else [] := by
  induction l with
  | nil => simp
  | cons b t ih =>
    rcases List.nodup_cons.mp h with ⟨hb, ht⟩
    by_cases hba : b = a
    · subst hba
      rw [List.filter_cons_of_pos (by simp)]
      rw [ih ht, if_neg hb, if_pos (List.mem_cons_self b t)]
    · rw [List.filter_cons_of_neg (by simpa using hba)]
      rw [ih ht]
      have hab : ¬ a = b := fun he => hba he.symm
      simp [List.mem_cons, hab]

/-- The count the grouped table reports for one key is the number of source
rows carrying that key. -/
theorem tabelaPresenca_filter_sum (L : List (String × String)) (nome data : String) :
    (((tabelaPresenca L).filter (fun r => r.1 = nome ∧ r.2.1 = data)).map
        (fun r => r.2.2)).sum = L.count (nome, data) := by
  unfold tabelaPresenca
  have hperm :
      List.Perm
        ((List.insertionSort leDataTripla
            (L.dedup.map (fun k => (k.1, k.2, L.count k)))).filter
          (fun r => decide (r.1 = nome ∧ r.2.1 = data)))
        ((L.dedup.map (fun k => (k.1, k.2, L.count k))).filter
          (fun r => decide (r.1 = nome ∧ r.2.1 = data))) :=
    (List.perm_insertionSort leDataTripla _).filter _
  rw [(hperm.map (fun r => r.2.2)).sum_eq]
  rw [List.filter_map]
  have hpred :
      (L.dedup.filter
        ((fun r : String × String × Nat => decide (r.1 = nome ∧ r.2.1 = data)) ∘
          (fun k => (k.1, k.2, L.count k)))) =
      L.dedup.filter (fun k => k = (nome, data)) := by
    apply List.filter_congr
    intro k _
    simp [Function.comp, Prod.ext_iff]
  rw [hpred, filter_eq_singleton_of_nodup L.nodup_dedup]
  by_cases hmem : (nome, data) ∈ L
  · rw [if_pos (List.mem_dedup.mpr hmem)]
    simp
  · rw [if_neg (fun hc => hmem (List.mem_dedup.mp hc))]
    simp [List.count_eq_zero_of_not_mem hmem]

/-- `contagemRelatada` is the raw count of matching joined present rows. -/
theorem contagemRelatada_eq_count (s : Store) (nome data : String) :
    contagemRelatada s nome data = (presentePares s).count (nome, data) :=
  tabelaPresenca_filter_sum (presentePares s) nome data

/-- When activity ids are pairwise distinct, the id-join of a stored activity
produces exactly its row. -/
theorem filter_atividade_id {l : List Atividade} {A : Atividade}
    (hnd : (l.map Atividade.id).Nodup) (hA : A ∈ l) :
    l.filter (fun a => a.id = A.id) = [A] := by
  induction l with
  | nil => cases hA
  | cons b t ih =>
    rw [List.map_cons, List.nodup_cons] at hnd
    rcases hnd with ⟨hb, ht⟩
    rcases List.mem_cons.mp hA with rfl | hA2
    · rw [List.filter_cons_of_pos (by simp)]
      have hnil : t.filter (fun a => decide (a.id = A.id)) = [] := by
        rw [List.filter_eq_nil_iff]
        intro x hx
        simp only [decide_eq_true_eq]
        intro hxb
        exact hb (hxb ▸ List.mem_map_of_mem Atividade.id hx)
      rw [hnil]
    · have hbA : ¬ b.id = A.id := by
        intro he
        exact hb (he ▸ List.mem_map_of_mem Atividade.id hA2)
      rw [List.filter_cons_of_neg (by simpa using hbA)]
      exact ih ht hA2

/-- Registering a present attendance for stored activity `A` on date `D`
appends exactly the pair `(A.atividade, D)` to the aggregation's source rows. -/
theorem presentePares_registrar_presente (s : Store) (pid : Nat) (A : Atividade)
    (D : String) (hA : A ∈ s.atividades)
    (hnd : (s.atividades.map Atividade.id).Nodup) :
    presentePares (registrar_frequencia s pid A.id 1 D) =
      presentePares s ++ [(A.atividade, D)] := by
  unfold presentePares registrar_frequencia
  simp only [List.filter_append, List.flatMap_append]
  rw [List.filter_cons_of_pos (by simp)]
  simp [filter_atividade_id hnd hA]

/-- Registering an absence leaves the aggregation's source rows unchanged. -/
theorem presentePares_registrar_ausente (s : Store) (pid aid : Nat) (D : String) :
    presentePares (registrar_frequencia s pid aid 0 D) = presentePares s := by
  unfold presentePares registrar_frequencia
  simp only [List.filter_append]
  rw [List.filter_cons_of_neg (by simp)]
  simp

/-- C2: for a participant and an activity stored in the database, registering
a present attendance on date `D` increases the count the aggregation reports
for the group (activity name, `D`) by exactly one, while registering an
absence leaves the whole aggregation unchanged. -/
theorem registrar_frequencia_contagem (s : Store) (P : Participante)
    (A : Atividade) (D : String) (_hP : P ∈ s.participantes)
    (hA : A ∈ s.atividades) (hnd : (s.atividades.map Atividade.id).Nodup) :
    contagemRelatada (registrar_frequencia s P.id A.id 1 D) A.atividade D =
      contagemRelatada s A.atividade D + 1 ∧
    obter_dados_participantes_por_atividade (registrar_frequencia s P.id A.id 0 D) =
      obter_dados_participantes_por_atividade s := by
  constructor
  · rw [contagemRelatada_eq_count, contagemRelatada_eq_count,
      presentePares_registrar_presente s P.id A D hA hnd, List.count_append]
    simp
  · unfold obter_dados_participantes_por_atividade
    rw [presentePares_registrar_ausente]

/-- C2 witness: registering Ana (id 1) as present at Futebol (id 1) on
2024-03-03 in `lojaDemo` raises that group's reported count by one, and an
absence on the same data changes nothing. -/
theorem registrar_frequencia_contagem_witness :
    contagemRelatada (registrar_frequencia lojaDemo 1 1 1 "2024-03-03")
        "Futebol" "2024-03-03" =
      contagemRelatada lojaDemo "Futebol" "2024-03-03" + 1 ∧
    obter_dados_participantes_por_atividade (registrar_frequencia lojaDemo 1 1 0 "2024-03-03") =
      obter_dados_participantes_por_atividade lojaDemo :=
  registrar_frequencia_contagem lojaDemo
    ⟨1, "Ana", 10, "Feminino", "5º ano", "2024-02-01"⟩
    ⟨1, "Futebol", "Treino semanal", "2024-02-01"⟩
    "2024-03-03" (by decide) (by decide) (by decide)

/-! ### Claims C8, C9, C10 -/

/-- C8: `excluir_atividade` keeps an activity row iff it was present with a
different id, keeps an attendance row iff it was present with a different
activity reference, and leaves the participants table unchanged; moreover,
after the scenario store, deleting activity 1 leaves the activity listing and
the attendance listing empty. -/
theorem excluir_atividade_spec :
    (∀ (s : Store) (atividade_id : Nat) (a : Atividade) (f : Frequencia),
        atividade_id ∈ s.atividades.map Atividade.id →
        ((a ∈ (excluir_atividade s atividade_id).atividades ↔
            a ∈ s.atividades ∧ a.id ≠ atividade_id) ∧
          (f ∈ (excluir_atividade s atividade_id).frequencia ↔
            f ∈ s.frequencia ∧ f.atividade_id ≠ atividade_id) ∧
          (excluir_atividade s atividade_id).participantes = s.participantes)) ∧
    visualizar_atividades (excluir_atividade cenario 1) = [] ∧
    visualizar_frequencia (excluir_atividade cenario 1) = [] := by
  refine ⟨?_, by decide, by decide⟩
  intro s atividade_id a f _
  refine ⟨?_, ?_, rfl⟩ <;> simp [excluir_atividade, List.mem_filter]

/-- C8 witness: deleting activity 1 of `cenario`, instantiated at the Futebol
row and at the scenario's attendance row. -/
theorem excluir_atividade_spec_witness :
    ((⟨1, "Futebol", "Treino semanal", "2024-02-01"⟩ : Atividade) ∈
        (excluir_atividade cenario 1).atividades ↔
      (⟨1, "Futebol", "Treino semanal", "2024-02-01"⟩ : Atividade) ∈
          cenario.atividades ∧
        (⟨1, "Futebol", "Treino semanal", "2024-02-01"⟩ : Atividade).id ≠ 1) ∧
    ((⟨1, 1, 1, 1, "2024-03-01"⟩ : Frequencia) ∈
        (excluir_atividade cenario 1).frequencia ↔
      (⟨1, 1, 1, 1, "2024-03-01"⟩ : Frequencia) ∈ cenario.frequencia ∧
        (⟨1, 1, 1, 1, "2024-03-01"⟩ : Frequencia).atividade_id ≠ 1) ∧
    (excluir_atividade cenario 1).participantes = cenario.participantes :=
  excluir_atividade_spec.1 cenario 1
    ⟨1, "Futebol", "Treino semanal", "2024-02-01"⟩
    ⟨1, 1, 1, 1, "2024-03-01"⟩ (by decide)

/-- C9: when no participant (or no activity) is registered, the submit
handler of the Register-Attendance screen never calls
`registrar_frequencia`: it shows an error and leaves the store unchanged. -/
theorem tela_registrar_sem_cadastro (s : Store) (selP selA presenca : Nat)
    (data_frequencia : String)
    (h : s.participantes = [] ∨ s.atividades = []) :
    (tela_registrar_frequencia s selP selA presenca data_frequencia).chamouRegistrar = false ∧
    (tela_registrar_frequencia s selP selA presenca data_frequencia).mostrouErro = true ∧
    (tela_registrar_frequencia s selP selA presenca data_frequencia).store = s := by
  rcases h with h | h <;>
    simp [tela_registrar_frequencia, get_participantes_dropdown,
      get_atividades_dropdown, h]

/-- C9 witness: the empty database refuses the submission. -/
theorem tela_registrar_sem_cadastro_witness :
    (tela_registrar_frequencia emptyStore 0 0 1 "2024-03-01").chamouRegistrar = false ∧
    (tela_registrar_frequencia emptyStore 0 0 1 "2024-03-01").mostrouErro = true ∧
    (tela_registrar_frequencia emptyStore 0 0 1 "2024-03-01").store = emptyStore :=
  tela_registrar_sem_cadastro emptyStore 0 0 1 "2024-03-01" (Or.inl rfl)

/-- C10 counterexample: `freqOrfa` is an attendance row of `lojaOrfa` whose
participant reference matches no participant (there are none), yet the
aggregation still counts it: its output is the non-empty table
`[("Futebol", "2024-03-01", 1)]`, whereas without the row it is empty.  So
orphaned rows are NOT omitted from both report operations as claimed: the
aggregation joins only activities. -/
theorem linhas_orfas_contraexemplo :
    freqOrfa ∈ lojaOrfa.frequencia ∧
    lojaOrfa.participantes = [] ∧
    obter_dados_participantes_por_atividade lojaOrfa = [("Futebol", "2024-03-01", 1)] ∧
    obter_dados_participantes_por_atividade lojaSemOrfa = [] := by
  refine ⟨by decide, rfl, by decide, by decide⟩

/-- C10 (amended): an attendance row whose participant reference or activity
reference matches no stored row contributes nothing to `visualizar_frequencia`;
a row whose activity reference matches no stored activity also contributes
nothing to `obter_dados_participantes_por_atividade` (which joins activities
only, so a participant-orphaned row with a matching activity is still
counted there). -/
theorem linhas_orfas_omitidas (s : Store) (f : Frequencia)
    (h : (∀ p ∈ s.participantes, p.id ≠ f.participante_id) ∨
      (∀ a ∈ s.atividades, a.id ≠ f.atividade_id)) :
    visualizar_frequencia { s with frequencia := s.frequencia ++ [f] } =
      visualizar_frequencia s ∧
    ((∀ a ∈ s.atividades, a.id ≠ f.atividade_id) →
      obter_dados_participantes_por_atividade { s with frequencia := s.frequencia ++ [f] } =
        obter_dados_participantes_por_atividade s) := by
  constructor
  · have hjoin : joinFrequencia { s with frequencia := s.frequencia ++ [f] } =
        joinFrequencia s := by
      unfold joinFrequencia
      rw [List.flatMap_append]
      rcases h with h | h
      · have hp : s.participantes.filter (fun p => decide (p.id = f.participante_id)) = [] := by
          rw [List.filter_eq_nil_iff]
          intro p hp
          simpa using h p hp
        simp [hp]
      · have ha : s.atividades.filter (fun a => decide (a.id = f.atividade_id)) = [] := by
          rw [List.filter_eq_nil_iff]
          intro a hax
          simpa using h a hax
        simp [ha]
    unfold visualizar_frequencia
    rw [hjoin]
  · intro ha
    have hanil : s.atividades.filter (fun a => decide (a.id = f.atividade_id)) = [] := by
      rw [List.filter_eq_nil_iff]
      intro a hax
      simpa using ha a hax
    have hpp : presentePares { s with frequencia := s.frequencia ++ [f] } =
        presentePares s := by
      unfold presentePares
      rw [List.filter_append, List.flatMap_append]
      by_cases hp1 : f.presenca = 1 <;> simp [hp1, hanil]
    unfold obter_dados_participantes_por_atividade
    rw [hpp]

/-- C10 (amended) witness: appending a row referencing participant 99 and
activity 99 to `lojaDemo` changes neither report. -/
theorem linhas_orfas_omitidas_witness :
    visualizar_frequencia { lojaDemo with
        frequencia := lojaDemo.frequencia ++ [⟨3, 99, 99, 1, "2024-03-05"⟩] } =
      visualizar_frequencia lojaDemo ∧
    ((∀ a ∈ lojaDemo.atividades, a.id ≠ (⟨3, 99, 99, 1, "2024-03-05"⟩ : Frequencia).atividade_id) →
      obter_dados_participantes_por_atividade { lojaDemo with
          frequencia := lojaDemo.frequencia ++ [⟨3, 99, 99, 1, "2024-03-05"⟩] } =
        obter_dados_participantes_por_atividade lojaDemo) :=
  linhas_orfas_omitidas lojaDemo ⟨3, 99, 99, 1, "2024-03-05"⟩ (Or.inl (by decide))
